import Mathlib

/-!
# Verification of the clickup-mcp onboarding and configuration-resolution flow

Shallow embedding of the core of the `ericluciano/clickup-mcp` repository:

* `src/config.js` — configuration store (`loadConfig` / `saveConfig`) and the
  environment/persisted credential resolution (`getApiKey`);
* `src/api.js` — the in-process API-key override (`setApiKeyOverride`) and the
  override-aware credential resolution used by every remote call;
* `src/tools/onboarding.js` — `fullSetup`, `stepSave` and the hierarchy
  discovery loops;
* `src/tools/tasks.js` — the `clickup_create_task` request-body resolution.

JavaScript values are modelled explicitly: an optional string field is
`Option String` (with `none` for `undefined`/`null`), JS truthiness of a
string is "present and non-empty", truthiness of a number is "present and
non-zero".  Remote calls are inputs of the model: each call site receives an
`Except`-valued result describing what the remote API returned (or that the
call threw).  The configuration file is a three-state value: missing,
present-but-unparseable, or holding a parsed record.  JSON serialisation is
modelled at the value level by `configToJson` / `configOfJson` on a JSON
syntax tree.
-/

namespace ClickupMCP

/-! ## JavaScript value helpers -/

/-- JS truthiness-based normalisation of an optional string:
`undefined`/`null`/`""` are falsy and collapse to `none`. -/
def jsNormStr : Option String → Option String
  | some s => if s = "" then none else some s
  | none => none

/-- JS truthiness of an optional string (`undefined`, `null` and `""` are falsy). -/
def jsTruthyStr : Option String → Bool
  | some s => s != ""
  | none => false

/-- JS `a || b` on optional numbers: `a` when present and non-zero, else `b`. -/
def jsOrInt : Option Int → Option Int → Option Int
  | some n, b => if n = 0 then b else some n
  | none, b => b

/-- JS conditional spread `...(v && { field: v })` on an optional number:
the field is kept only when the value is present and non-zero. -/
def jsNormInt : Option Int → Option Int
  | some n => if n = 0 then none else some n
  | none => none

/-- Character-level worker for JS `s.split(",")`. -/
def splitCommaAux : List Char → List Char → List (List Char)
  | [], acc => [acc.reverse]
  | c :: rest, acc =>
    if c = ',' then acc.reverse :: splitCommaAux rest []
    else splitCommaAux rest (c :: acc)

/-- JS `s.split(",")`: split on every comma, keeping empty pieces
(`"a,,b" → ["a", "", "b"]`, `"" → [""]`). -/
def jsSplitComma (s : String) : List String :=
  (splitCommaAux s.data []).map (fun cs => ⟨cs⟩)

/-- JS `s.trim()`: strip leading and trailing whitespace. -/
def jsTrim (s : String) : String :=
  ⟨((s.data.dropWhile Char.isWhitespace).reverse.dropWhile
      Char.isWhitespace).reverse⟩

/-- Model of `s.split(",").map((t) => t.trim())` from the source. -/
def splitTrim (s : String) : List String :=
  (jsSplitComma s).map jsTrim

/-- The numeric value of a non-empty all-digit character list. -/
def digitsVal (cs : List Char) : Option Nat :=
  if cs = [] then none
  else if cs.all Char.isDigit then
    some (cs.foldl (fun a c => a * 10 + (c.toNat - 48)) 0)
  else none

/-- Model of JS `Number(s)` restricted to optionally-signed decimal integer
strings (the only shape the repository feeds it: user ids and millisecond
timestamps).  `""` yields `0` as in JS; a non-numeric string yields `none`,
modelling `NaN`. -/
def jsToNumber (s : String) : Option Int :=
  match s.data with
  | [] => some 0
  | '-' :: rest => (digitsVal rest).map (fun n => -(n : Int))
  | cs => (digitsVal cs).map (fun n => ((n : Int)))

/-! ## Configuration record (§3 of the spec, shape built by the source) -/

/-- The `defaults` sub-record of `config.json`.  Every field is optional:
a hand-written or older file may omit any of them, and the source guards each
access (`defaults.assignee_self`, `existing.defaults?.priority || 3`, ...). -/
structure Defaults where
  assignee_self : Option Bool := none
  priority : Option Int := none
  tags : Option (List String) := none
  due_date_offset_days : Option Int := none
deriving DecidableEq, Repr

/-- The persisted configuration record, shape of `DEFAULT_CONFIG` in
`src/config.js` and of the object built by `fullSetup`. -/
structure Config where
  api_key : Option String := none
  workspace_id : Option String := none
  workspace_name : Option String := none
  default_list_id : Option String := none
  default_list_name : Option String := none
  user_id : Option String := none
  user_name : Option String := none
  user_email : Option String := none
  defaults : Option Defaults := none
deriving DecidableEq, Repr

/-! ## Configuration store (`loadConfig` / `saveConfig` in `src/config.js`) -/

/-- State of the `config.json` file: absent (`existsSync` false), present but
failing `JSON.parse` (the `catch` branch of `loadConfig`), or holding a
parsed record. -/
inductive FileState where
  | missing
  | invalid
  | record (c : Config)
deriving DecidableEq, Repr

/-- Function `loadConfig()`: `null` when the file is missing, `null` when parsing
throws, otherwise the parsed record.  Total — it never raises. -/
def loadConfig : FileState → Option Config
  | .missing => none
  | .invalid => none
  | .record c => some c

/-- Function `saveConfig(config)`: overwrites the file with the full record. -/
def saveConfig (c : Config) : FileState :=
  .record c

/-! ## Credential resolution (`getApiKey` in `src/config.js` and `src/api.js`) -/

/-- Function `getApiKey` from `src/config.js`, as a state-passing function: reads the
environment variable, else the persisted record's `api_key`, else `null`.
The file component of the result is what the call leaves on disk — the body
performs only `loadConfig`, so every branch returns the input file. -/
def getApiKeyCfgSt (env : Option String) (fs : FileState) :
    Option String × FileState :=
  if jsTruthyStr env then (env, fs)
  else
    match loadConfig fs with
    | some c => (if jsTruthyStr c.api_key then c.api_key else none, fs)
    | none => (none, fs)

/-- The error message thrown by `getApiKey` in `src/api.js` when no source
yields a credential. -/
def noKeyMsg : String :=
  "No API key configured. Run clickup_onboarding with your API key first."

/-- Function `getApiKey` from `src/api.js`: the in-process override when truthy, else
the `src/config.js` resolution; throws (`Except.error`) when that yields a
falsy value. -/
def apiResolveApiKey (ov env : Option String) (fs : FileState) :
    Except String String :=
  if jsTruthyStr ov then .ok (ov.getD "")
  else
    match (getApiKeyCfgSt env fs).1 with
    | some k => if k = "" then .error noKeyMsg else .ok k
    | none => .error noKeyMsg

/-! ## JSON serialisation at the value level

`saveConfig` writes `JSON.stringify(config)` and `loadConfig` applies
`JSON.parse`.  We model the serialisation on a JSON syntax tree: the record
is encoded to a `Json` value exactly key-by-key as `JSON.stringify` lays it
out, and decoded back field-by-field.  The round-trip theorem says the
persisted document determines the record (deep-equality of the reloaded
record with the saved one). -/

/-- JSON documents (numbers restricted to the integers the record holds). -/
inductive Json where
  | null
  | bool (b : Bool)
  | num (n : Int)
  | str (s : String)
  | arr (xs : List Json)
  | obj (fields : List (String × Json))

/-- Encode an optional string field (`null` for an absent value). -/
def encOptStr : Option String → Json
  | some s => .str s
  | none => .null

/-- Encode an optional boolean field. -/
def encOptBool : Option Bool → Json
  | some b => .bool b
  | none => .null

/-- Encode an optional integer field. -/
def encOptInt : Option Int → Json
  | some n => .num n
  | none => .null

/-- Encode an optional string-list field. -/
def encOptStrList : Option (List String) → Json
  | some l => .arr (l.map Json.str)
  | none => .null

/-- Decode an optional string field. -/
def decOptStr : Json → Option (Option String)
  | .null => some none
  | .str s => some (some s)
  | _ => none

/-- Decode an optional boolean field. -/
def decOptBool : Json → Option (Option Bool)
  | .null => some none
  | .bool b => some (some b)
  | _ => none

/-- Decode an optional integer field. -/
def decOptInt : Json → Option (Option Int)
  | .null => some none
  | .num n => some (some n)
  | _ => none

/-- Decode a list of JSON strings. -/
def decStrList : List Json → Option (List String)
  | [] => some []
  | .str s :: rest =>
    match decStrList rest with
    | some l => some (s :: l)
    | none => none
  | _ :: _ => none

/-- Decode an optional string-list field. -/
def decOptStrList : Json → Option (Option (List String))
  | .null => some none
  | .arr xs =>
    match decStrList xs with
    | some l => some (some l)
    | none => none
  | _ => none

/-- Encode the `defaults` sub-record in the key order the source writes it. -/
def defaultsToJson (d : Defaults) : Json :=
  .obj [("assignee_self", encOptBool d.assignee_self),
        ("priority", encOptInt d.priority),
        ("tags", encOptStrList d.tags),
        ("due_date_offset_days", encOptInt d.due_date_offset_days)]

/-- Decode the `defaults` sub-record. -/
def defaultsOfJson : Json → Option Defaults
  | .obj [("assignee_self", ja), ("priority", jp), ("tags", jt),
          ("due_date_offset_days", jd)] =>
    match decOptBool ja, decOptInt jp, decOptStrList jt, decOptInt jd with
    | some a, some p, some t, some d => some ⟨a, p, t, d⟩
    | _, _, _, _ => none
  | _ => none

/-- Encode an optional `defaults` sub-record. -/
def encOptDefaults : Option Defaults → Json
  | some d => defaultsToJson d
  | none => .null

/-- Decode an optional `defaults` sub-record. -/
def decOptDefaults : Json → Option (Option Defaults)
  | .null => some none
  | j =>
    match defaultsOfJson j with
    | some d => some (some d)
    | none => none

/-- Encode a configuration record to JSON, keys in the order the source
builds the object. -/
def configToJson (c : Config) : Json :=
  .obj [("api_key", encOptStr c.api_key),
        ("workspace_id", encOptStr c.workspace_id),
        ("workspace_name", encOptStr c.workspace_name),
        ("default_list_id", encOptStr c.default_list_id),
        ("default_list_name", encOptStr c.default_list_name),
        ("user_id", encOptStr c.user_id),
        ("user_name", encOptStr c.user_name),
        ("user_email", encOptStr c.user_email),
        ("defaults", encOptDefaults c.defaults)]

/-- Decode a configuration record from JSON. -/
def configOfJson : Json → Option Config
  | .obj [("api_key", j1), ("workspace_id", j2), ("workspace_name", j3),
          ("default_list_id", j4), ("default_list_name", j5),
          ("user_id", j6), ("user_name", j7), ("user_email", j8),
          ("defaults", j9)] =>
    match decOptStr j1, decOptStr j2, decOptStr j3, decOptStr j4,
          decOptStr j5, decOptStr j6, decOptStr j7, decOptStr j8,
          decOptDefaults j9 with
    | some a, some b, some c, some d, some e, some f, some g, some h,
      some i => some ⟨a, b, c, d, e, f, g, h, i⟩
    | _, _, _, _, _, _, _, _, _ => none
  | _ => none

/-! ## Remote hierarchy discovery (`fullSetup` / `stepChooseList` loops)

The three per-branch fetches (`getFolderlessLists`, `getFolders`,
`getListsInFolder`) are inputs of the model: each is an `Except`-valued
result embedded in the space/folder description, `Except.error` meaning the
call threw.  The surrounding `try {} catch {}` of the source becomes a match
that turns a thrown branch into no contribution. -/

/-- A raw list as returned by the remote API (`list.id`, `list.name`). -/
structure ListRaw where
  id : String
  name : String
deriving DecidableEq, Repr

/-- A folder as returned by `getFolders`, together with the outcome of the
`getListsInFolder(folder.id)` call made for it. -/
structure FolderRaw where
  name : String
  lists : Except String (List ListRaw)

/-- A space as returned by `getSpaces`, together with the outcomes of the
`getFolderlessLists(space.id)` and `getFolders(space.id)` calls made for it. -/
structure SpaceRaw where
  name : String
  isPrivate : Bool
  folderless : Except String (List ListRaw)
  folders : Except String (List FolderRaw)

/-- One entry of `allLists`: `{ id, name, space, folder }`, `folder` null for
a folderless list. -/
structure Entry where
  id : String
  name : String
  space : String
  folder : Option String
deriving DecidableEq, Repr

/-- Entries contributed by one folder: the `try { getListsInFolder } catch {}`
inner loop — a thrown fetch contributes nothing. -/
def folderEntries (spaceName : String) (f : FolderRaw) : List Entry :=
  match f.lists with
  | .ok ls => ls.map (fun l => ⟨l.id, l.name, spaceName, some f.name⟩)
  | .error _ => []

/-- Entries contributed by a space's folders, in folder order. -/
def foldersEntries (spaceName : String) : List FolderRaw → List Entry
  | [] => []
  | f :: rest => folderEntries spaceName f ++ foldersEntries spaceName rest

/-- Entries contributed by a space's folderless lists: the
`try { getFolderlessLists } catch {}` block. -/
def folderlessEntries (sp : SpaceRaw) : List Entry :=
  match sp.folderless with
  | .ok ls => ls.map (fun l => ⟨l.id, l.name, sp.name, none⟩)
  | .error _ => []

/-- Entries contributed by one space: folderless lists first, then folder
lists; the `try { getFolders } catch {}` block makes a thrown folder
enumeration contribute nothing. -/
def spaceEntries (sp : SpaceRaw) : List Entry :=
  folderlessEntries sp ++
    (match sp.folders with
     | .ok fs => foldersEntries sp.name fs
     | .error _ => [])

/-- The `allLists` accumulation of `fullSetup`: spaces in API order. -/
def discoverLists : List SpaceRaw → List Entry
  | [] => []
  | sp :: rest => spaceEntries sp ++ discoverLists rest

/-- Replace a thrown folder-lists fetch by an empty result. -/
def absorbFolder (f : FolderRaw) : FolderRaw :=
  { f with lists := match f.lists with
                    | .ok ls => .ok ls
                    | .error _ => .ok [] }

/-- Replace every thrown branch fetch of a space by an empty result. -/
def absorbSpace (sp : SpaceRaw) : SpaceRaw :=
  { sp with
    folderless := match sp.folderless with
                  | .ok ls => .ok ls
                  | .error _ => .ok []
    folders := match sp.folders with
               | .ok fs => .ok (fs.map absorbFolder)
               | .error _ => .ok [] }

/-! ## Onboarding flow (`src/tools/onboarding.js`) -/

/-- The authenticated identity returned by `getAuthorizedUser`. -/
structure User where
  id : String
  username : String
  email : String
deriving DecidableEq, Repr

/-- A workspace ("team") returned by `getTeams`. -/
structure Team where
  id : String
  name : String
deriving DecidableEq, Repr

/-- Outcomes of the critical-path remote calls a full-setup invocation makes:
identity fetch, workspace enumeration, and space enumeration per workspace. -/
structure RemoteEnv where
  user : Except String User
  teams : Except String (List Team)
  spaces : String → Except String (List SpaceRaw)

/-- Process state touched by onboarding: the persisted file and the
in-process API-key override of `src/api.js`. -/
structure SysState where
  file : FileState
  override : Option String

/-- Tags for the human-readable payloads the onboarding tool returns; the
rendered text is pure formatting and is not modelled. -/
inductive MsgTag where
  | setupOk
  | noWorkspacesText
  | noConfigText
  | cfgSavedText
  | currentCfgText
  | chooseListText
  | setupInstructions
deriving DecidableEq, Repr

/-- A tool result: message tag plus whether the payload carries
`isError: true`.  `text(msg)` in the source sets no `isError` flag. -/
structure ToolRes where
  isError : Bool
  tag : MsgTag
deriving DecidableEq, Repr

/-- Helper `text(msg)` from `src/tools/onboarding.js`: a payload with no error flag. -/
def text (tag : MsgTag) : ToolRes :=
  ⟨false, tag⟩

/-- How a `fullSetup` call ends: a returned payload, or a thrown error
(which the tool dispatcher then renders as an error payload). -/
inductive Outcome where
  | returned (r : ToolRes)
  | thrown (e : String)

/-- Parameters of the `clickup_onboarding` tool (all optional). -/
structure OnboardParams where
  workspace_id : Option String := none
  list_id : Option String := none
  list_name : Option String := none
  priority : Option Int := none
  tags : Option String := none
  due_date_offset_days : Option Int := none
  assignee_self : Option Bool := none
deriving DecidableEq, Repr

/-- Selection `teams.find((t) => String(t.id) === params.workspace_id) || teams[0]`. -/
def pickWorkspace (params : OnboardParams) (t0 : Team) (teams : List Team) :
    Team :=
  (teams.find? (fun t => params.workspace_id == some t.id)).getD t0

/-- The configuration record `fullSetup` builds (step 4 of the source):
caller-supplied values where given, hardcoded fallbacks otherwise.  Note
`params.priority || 3` (truthy), `params.tags ? split : ["via-claude"]`
(truthy), `params.assignee_self ?? true` and
`params.due_date_offset_days ?? 1` (nullish). -/
def buildFullConfig (apiKey : String) (workspace : Team) (user : User)
    (params : OnboardParams) : Config :=
  { api_key := some apiKey
    workspace_id := some workspace.id
    workspace_name := some workspace.name
    default_list_id := jsNormStr params.list_id
    default_list_name := jsNormStr params.list_name
    user_id := some user.id
    user_name := some user.username
    user_email := some user.email
    defaults := some
      { assignee_self := some (params.assignee_self.getD true)
        priority := some (match params.priority with
                          | some p => if p = 0 then 3 else p
                          | none => 3)
        tags := some (match jsNormStr params.tags with
                      | some s => splitTrim s
                      | none => ["via-claude"])
        due_date_offset_days := some (params.due_date_offset_days.getD 1) } }

/-- Function `fullSetup(apiKey, params)` from `src/tools/onboarding.js`: sets the
override, validates the key, enumerates workspaces (early-returning a plain
payload when there are none), selects the workspace, discovers the
hierarchy, persists the configuration, clears the override, and returns.
The `catch` block clears the override and rethrows; the early return does
not pass through it. -/
def fullSetup (env : RemoteEnv) (apiKey : String) (params : OnboardParams)
    (st : SysState) : SysState × Outcome :=
  let st1 : SysState := { st with override := some apiKey }
  match env.user with
  | .error e => ({ st1 with override := none }, .thrown e)
  | .ok user =>
    match env.teams with
    | .error e => ({ st1 with override := none }, .thrown e)
    | .ok [] => (st1, .returned (text .noWorkspacesText))
    | .ok (t0 :: rest) =>
      let workspace := pickWorkspace params t0 (t0 :: rest)
      match env.spaces workspace.id with
      | .error e => ({ st1 with override := none }, .thrown e)
      | .ok spaces =>
        let _allLists := discoverLists spaces
        let config := buildFullConfig apiKey workspace user params
        let st2 : SysState := { st1 with file := saveConfig config }
        let st3 : SysState := { st2 with override := none }
        (st3, .returned (text .setupOk))

/-- Function `stepSave(params)` from `src/tools/onboarding.js`: plain payload (no
error flag, no write) when nothing is persisted; otherwise spread-merge of
the supplied identifiers and field-by-field defaults merge, then save. -/
def stepSave (params : OnboardParams) (fs : FileState) :
    FileState × ToolRes :=
  match loadConfig fs with
  | none => (fs, text .noConfigText)
  | some existing =>
    let cfg : Config :=
      { api_key := existing.api_key
        workspace_id := match jsNormStr params.workspace_id with
                        | some w => some w
                        | none => existing.workspace_id
        workspace_name := existing.workspace_name
        default_list_id := match jsNormStr params.list_id with
                           | some l => some l
                           | none => existing.default_list_id
        default_list_name := match jsNormStr params.list_name with
                             | some l => some l
                             | none => existing.default_list_name
        user_id := existing.user_id
        user_name := existing.user_name
        user_email := existing.user_email
        defaults := some
          { assignee_self := some (params.assignee_self.getD
              ((existing.defaults.bind Defaults.assignee_self).getD true))
            priority := jsOrInt params.priority
              (jsOrInt (existing.defaults.bind Defaults.priority) (some 3))
            tags := match jsNormStr params.tags with
                    | some s => some (splitTrim s)
                    | none =>
                      match existing.defaults.bind Defaults.tags with
                      | some t => some t
                      | none => some ["via-claude"]
            due_date_offset_days := some (params.due_date_offset_days.getD
              ((existing.defaults.bind Defaults.due_date_offset_days).getD 1)) } }
    (saveConfig cfg, text .cfgSavedText)

/-! ## Task default resolution (`clickup_create_task` in `src/tools/tasks.js`) -/

/-- A local calendar instant: local days since the epoch plus milliseconds
into that day.  `d.setDate(d.getDate() + k)` advances `day` by `k`;
`d.setHours(23, 59, 59, 0)` sets `msOfDay` to `86399000`. -/
structure LocalTime where
  day : Int
  msOfDay : Int
deriving DecidableEq, Repr

/-- Model of `Date.prototype.getTime()` for the local-calendar model. -/
def localToEpochMs (t : LocalTime) : Int :=
  t.day * 86400000 + t.msOfDay

/-- Milliseconds of local 23:59:59.000. -/
def endOfDayMs : Int := 86399000

/-- Function `toTimestamp(value)` from `src/tools/tasks.js`: a numeric value above
`1e12` is already a millisecond timestamp; otherwise the string goes through
`new Date(value)`, modelled by the ambient `parseDate` function (`none` for
an invalid date). -/
def toTimestamp (parseDate : String → Option Int) (s : String) : Option Int :=
  match jsToNumber s with
  | some n => if n > 1000000000000 then some n else parseDate s
  | none => parseDate s

/-- Parameters of the `clickup_create_task` tool. -/
structure TaskParams where
  name : String
  description : Option String := none
  list_id : Option String := none
  status : Option String := none
  priority : Option Int := none
  assignees : Option String := none
  tags : Option String := none
  due_date : Option String := none
  start_date : Option String := none
  time_estimate : Option Int := none
  parent : Option String := none
  notify_all : Option Bool := none
deriving DecidableEq, Repr

/-- The resolved request body sent to `createTask`.  Spread-conditioned
fields are `Option`s (`none` = key absent); `priority` is always present but
may be `null` (`none`); an assignee entry is `none` when `Number` yielded
`NaN`. -/
structure TaskBody where
  name : String
  markdown_description : Option String
  assignees : Option (List (Option Int))
  tags : Option (List String)
  status : Option String
  priority : Option Int
  due_date : Option Int
  start_date : Option Int
  time_estimate : Option Int
  parent : Option String
  notify_all : Bool
deriving DecidableEq, Repr

/-- How the `clickup_create_task` handler proceeds after resolution: an
error payload when no list is resolvable, else the list to post to and the
resolved body. -/
inductive CreateOutcome where
  | noList
  | request (listId : String) (body : TaskBody)
deriving DecidableEq, Repr

/-- The resolution part of the `clickup_create_task` handler: load the
configuration, resolve the list, and build the request body by merging
explicit fields over persisted defaults. -/
def createTaskResolve (fs : FileState) (p : TaskParams) (now : LocalTime)
    (parseDate : String → Option Int) : CreateOutcome :=
  let config := loadConfig fs
  let listId := match jsNormStr p.list_id with
                | some l => some l
                | none => jsNormStr (config.bind Config.default_list_id)
  match listId with
  | none => .noList
  | some listId =>
    let defaults : Defaults := (config.bind Config.defaults).getD {}
    let assignees : List (Option Int) :=
      match jsNormStr p.assignees with
      | some s => (jsSplitComma s).map (fun t => jsToNumber (jsTrim t))
      | none =>
        match defaults.assignee_self, jsNormStr (config.bind Config.user_id) with
        | some true, some uid => [jsToNumber uid]
        | _, _ => []
    let tags : List String :=
      match jsNormStr p.tags with
      | some s => splitTrim s
      | none =>
        match defaults.tags with
        | some l => if 0 < l.length then l else []
        | none => []
    let dueRaw : Option Int :=
      match jsNormStr p.due_date with
      | some s => toTimestamp parseDate s
      | none =>
        match defaults.due_date_offset_days with
        | some ofs =>
          if ofs = 0 then none
          else some (localToEpochMs ⟨now.day + ofs, endOfDayMs⟩)
        | none => none
    .request listId
      { name := p.name
        markdown_description := jsNormStr p.description
        assignees := if 0 < assignees.length then some assignees else none
        tags := if 0 < tags.length then some tags else none
        status := jsNormStr p.status
        priority := jsOrInt p.priority (jsOrInt defaults.priority none)
        due_date := jsNormInt dueRaw
        start_date := jsNormInt (match jsNormStr p.start_date with
                                 | some s => toTimestamp parseDate s
                                 | none => none)
        time_estimate := jsNormInt p.time_estimate
        parent := jsNormStr p.parent
        notify_all := p.notify_all.getD true }

/-- A remote environment whose identity fetch rejects the credential. -/
def envBadKey : RemoteEnv :=
  ⟨.error "ClickUp API 401", .ok [], fun _ => .ok []⟩

/-- A remote environment where the credential is valid but owns no
workspaces. -/
def envNoTeams : RemoteEnv :=
  ⟨.ok ⟨"1", "u", "u@x"⟩, .ok [], fun _ => .ok []⟩

/-- The identity used in the C3 scenario. -/
def userC3 : User := ⟨"77", "eric", "eric@x"⟩

/-- A remote environment with one workspace and no spaces. -/
def envOneTeam : RemoteEnv :=
  ⟨.ok userC3, .ok [⟨"W1", "Main"⟩], fun _ => .ok []⟩

/-- A previously persisted record whose defaults differ from the hardcoded
fallbacks in every field. -/
def priorCfg : Config :=
  { api_key := some "pk_old", workspace_id := some "W1",
    workspace_name := some "Main", default_list_id := some "L9",
    default_list_name := some "Inbox", user_id := some "77",
    user_name := some "eric", user_email := some "eric@x",
    defaults := some ⟨some true, some 2, some ["ops"], some 5⟩ }

/-- The amended C3 merge: each defaults field is the caller-supplied value
when one was given, otherwise the hardcoded fallback — written from the
amended claim's words. -/
def amendedDefaults (p : OnboardParams) : Defaults :=
  { assignee_self := some (p.assignee_self.getD true)
    priority := some ((p.priority.filter (fun n => n ≠ 0)).getD 3)
    tags := some (match p.tags with
                  | some s => if s = "" then ["via-claude"] else splitTrim s
                  | none => ["via-claude"])
    due_date_offset_days := some (p.due_date_offset_days.getD 1) }

/-- A space whose folder enumeration throws but whose folderless lists are
available. -/
def spFolderFail : SpaceRaw :=
  ⟨"S1", false, .ok [⟨"11", "Inbox"⟩], .error "ClickUp API 500"⟩

/-- A fully healthy second space with one folderless list and one folder. -/
def spHealthy : SpaceRaw :=
  ⟨"S2", true, .ok [⟨"21", "Personal"⟩],
    .ok [⟨"F1", .ok [⟨"22", "Deep"⟩]⟩]⟩

/-! ### Pure workspace description for the traversal-order claim -/

/-- A folder with its (successfully fetched) lists. -/
structure PFolder where
  name : String
  lists : List ListRaw
deriving DecidableEq, Repr

/-- A space with its (successfully fetched) folderless lists and folders. -/
structure PSpace where
  name : String
  isPrivate : Bool
  folderless : List ListRaw
  folders : List PFolder
deriving DecidableEq, Repr

/-- Embed a pure folder as a folder whose list fetch succeeded. -/
def encodeFolder (f : PFolder) : FolderRaw :=
  ⟨f.name, .ok f.lists⟩

/-- Embed a pure space as a space whose branch fetches all succeeded. -/
def encodeSpace (s : PSpace) : SpaceRaw :=
  ⟨s.name, s.isPrivate, .ok s.folderless, .ok (s.folders.map encodeFolder)⟩

/-- Spec-side entry for a folderless list: id, name, owning space, null
folder. -/
def specFolderlessEntry (spaceName : String) (l : ListRaw) : Entry :=
  ⟨l.id, l.name, spaceName, none⟩

/-- Spec-side entry for a list inside a folder: id, name, owning space,
owning folder. -/
def specFolderEntry (spaceName folderName : String) (l : ListRaw) : Entry :=
  ⟨l.id, l.name, spaceName, some folderName⟩

/-- Spec-side traversal, written from the spec's words: spaces in returned
order; within a space the folderless lists first, then each folder's lists
in folder order. -/
def specTraversal (ws : List PSpace) : List Entry :=
  (ws.map (fun s =>
    s.folderless.map (specFolderlessEntry s.name) ++
      (s.folders.map (fun f => f.lists.map (specFolderEntry s.name f.name))).flatten)).flatten

/-- The persisted configuration of the C5 scenario: hardcoded-fallback
defaults, user id 42, a configured default list. -/
def cfgC5 : Config :=
  { api_key := some "pk_live", workspace_id := some "W1",
    workspace_name := some "Main", default_list_id := some "L1",
    default_list_name := some "Inbox", user_id := some "42",
    user_name := some "u", user_email := some "u@x",
    defaults := some ⟨some true, some 3, some ["via-claude"], some 1⟩ }

/-- The persisted configuration of the C10 scenario: a zero due-date
offset. -/
def cfgC10 : Config :=
  { api_key := some "pk_live", default_list_id := some "L1",
    user_id := some "42",
    defaults := some ⟨some true, some 3, some ["via-claude"], some 0⟩ }

theorem decOptStr_enc (o : Option String) : decOptStr (encOptStr o) = some o := by
  cases o <;> rfl

theorem decOptBool_enc (o : Option Bool) : decOptBool (encOptBool o) = some o := by
  cases o <;> rfl

theorem decOptInt_enc (o : Option Int) : decOptInt (encOptInt o) = some o := by
  cases o <;> rfl

theorem decStrList_enc (l : List String) :
    decStrList (l.map Json.str) = some l := by
  induction l with
  | nil => rfl
  | cons s rest ih => simp [decStrList, ih]

theorem decOptStrList_enc (o : Option (List String)) :
    decOptStrList (encOptStrList o) = some o := by
  cases o with
  | none => rfl
  | some l => simp [encOptStrList, decOptStrList, decStrList_enc]

theorem defaultsOfJson_enc (d : Defaults) :
    defaultsOfJson (defaultsToJson d) = some d := by
  simp [defaultsToJson, defaultsOfJson, decOptBool_enc, decOptInt_enc,
    decOptStrList_enc]

theorem decOptDefaults_enc (o : Option Defaults) :
    decOptDefaults (encOptDefaults o) = some o := by
  cases o with
  | none => rfl
  | some d =>
    show (match defaultsOfJson (defaultsToJson d) with
          | some x => some (some x)
          | none => none) = some (some d)
    rw [defaultsOfJson_enc]

theorem configOfJson_enc (c : Config) :
    configOfJson (configToJson c) = some c := by
  simp [configToJson, configOfJson, decOptStr_enc, decOptDefaults_enc]

/-! ## Claim theorems -/

/-- C9: loading immediately after saving a configuration record returns a
record deep-equal to the one saved (the serialised JSON document decodes
back to the record, field for field), and `loadConfig` never raises: it
returns absent both when the file is missing and when its contents fail to
parse. -/
theorem save_load_roundtrip :
    (∀ (c : Config), loadConfig (saveConfig c) = some c) ∧
    (∀ (c : Config), configOfJson (configToJson c) = some c) ∧
    loadConfig .missing = none ∧ loadConfig .invalid = none :=
  ⟨fun _ => rfl, configOfJson_enc, rfl, rfl⟩

/-- C4: credential resolution returns the in-process override when set, else
the environment credential when set, else the persisted record's `api_key`,
else no credential (the `src/api.js` resolver then throws its
not-configured error); and the `src/config.js` resolution leaves the
persisted file exactly as it found it. -/
theorem credential_precedence :
    ∀ (ov env : Option String) (fs : FileState),
      (∀ s, ov = some s → s ≠ "" → apiResolveApiKey ov env fs = .ok s) ∧
      (jsTruthyStr ov = false → ∀ s, env = some s → s ≠ "" →
        apiResolveApiKey ov env fs = .ok s) ∧
      (jsTruthyStr ov = false → jsTruthyStr env = false →
        ∀ c s, loadConfig fs = some c → c.api_key = some s → s ≠ "" →
          apiResolveApiKey ov env fs = .ok s) ∧
      (jsTruthyStr ov = false → jsTruthyStr env = false →
        jsTruthyStr ((loadConfig fs).bind Config.api_key) = false →
          apiResolveApiKey ov env fs = .error noKeyMsg) ∧
      (getApiKeyCfgSt env fs).2 = fs := by
  intro ov env fs
  refine ⟨?_, ?_, ?_, ?_, ?_⟩
  · rintro s rfl hs
    simp [apiResolveApiKey, jsTruthyStr, hs]
  · rintro hov s rfl hs
    unfold apiResolveApiKey getApiKeyCfgSt
    rw [hov]
    simp [jsTruthyStr, hs]
  · rintro hov henv c s hload hkey hs
    unfold apiResolveApiKey getApiKeyCfgSt
    rw [hov, henv, hload]
    simp [hkey, jsTruthyStr, hs]
  · rintro hov henv hfile
    unfold apiResolveApiKey getApiKeyCfgSt
    rw [hov, henv]
    cases hload : loadConfig fs with
    | none => simp
    | some c =>
      rw [hload] at hfile
      simp only [Option.some_bind] at hfile
      simp [hfile]
  · unfold getApiKeyCfgSt
    split
    · rfl
    · cases loadConfig fs <;> rfl

/-- Witness for C4: each precedence case realised at a concrete input. -/
theorem credential_precedence_witness :
    apiResolveApiKey (some "pk_o") (some "pk_e") .missing = .ok "pk_o" ∧
    apiResolveApiKey none (some "pk_e") .missing = .ok "pk_e" ∧
    apiResolveApiKey none none (.record { api_key := some "pk_c" })
      = .ok "pk_c" ∧
    apiResolveApiKey none none .missing = .error noKeyMsg :=
  ⟨(credential_precedence (some "pk_o") (some "pk_e") .missing).1
      "pk_o" rfl (by decide),
   (credential_precedence none (some "pk_e") .missing).2.1
      (by decide) "pk_e" rfl (by decide),
   (credential_precedence none none
        (.record { api_key := some "pk_c" })).2.2.1
      (by decide) (by decide) _ "pk_c" rfl rfl (by decide),
   (credential_precedence none none .missing).2.2.2.1
      (by decide) (by decide) (by decide)⟩

/-- C2: a full-setup invocation whose credential fails remote validation
leaves the persisted file exactly as it was (for every prior file state) and
rethrows the upstream error. -/
theorem invalid_credential_no_write :
    ∀ (env : RemoteEnv) (e apiKey : String) (params : OnboardParams)
      (st : SysState),
      env.user = .error e →
      (fullSetup env apiKey params st).1.file = st.file ∧
      (fullSetup env apiKey params st).2 = .thrown e := by
  intro env e apiKey params st h
  unfold fullSetup
  rw [h]
  exact ⟨rfl, rfl⟩

/-- Witness for C2: the invalid-credential setup at a concrete environment
leaves a missing file missing. -/
theorem invalid_credential_no_write_witness :
    (fullSetup envBadKey "pk_x" {} ⟨.missing, none⟩).1.file = .missing ∧
    (fullSetup envBadKey "pk_x" {} ⟨.missing, none⟩).2
      = .thrown "ClickUp API 401" :=
  invalid_credential_no_write envBadKey "ClickUp API 401" "pk_x" {}
    ⟨.missing, none⟩ rfl

/-- C1: the no-workspaces early return of `fullSetup` leaves the in-process
credential override set — evaluating the flow at a credential with no
workspaces ends with the override still holding the key, contradicting the
documented guarantee that the override is cleared on every exit path. -/
theorem override_leak_on_no_workspaces :
    (fullSetup envNoTeams "pk_leak" {} ⟨.missing, none⟩).1.override
      = some "pk_leak" ∧
    (fullSetup envNoTeams "pk_leak" {} ⟨.missing, none⟩).2
      = .returned (text .noWorkspacesText) :=
  ⟨rfl, rfl⟩

/-- Counterexample to C3: a prior record exists whose defaults are
priority 2, tags `["ops"]`, offset 5, yet a full setup supplying no
defaults persists the hardcoded fallbacks (priority 3, tags
`["via-claude"]`, offset 1) — the existing persisted defaults are never
consulted. -/
theorem fullsetup_ignores_prior_defaults :
    (fullSetup envOneTeam "pk_new" {} ⟨.record priorCfg, none⟩).1.file
      = .record (buildFullConfig "pk_new" ⟨"W1", "Main"⟩ userC3 {}) ∧
    (buildFullConfig "pk_new" ⟨"W1", "Main"⟩ userC3 {}).defaults
      = some ⟨some true, some 3, some ["via-claude"], some 1⟩ ∧
    priorCfg.defaults = some ⟨some true, some 2, some ["ops"], some 5⟩ :=
  ⟨rfl, rfl, rfl⟩

/-- C3 (amended): on every successful full setup, the persisted record is
built from the credential, identity, selected workspace and parameters
alone — independent of any prior file — and its defaults are the
caller-supplied values over the hardcoded fallbacks. -/
theorem fullsetup_defaults_caller_else_fallback :
    ∀ (env : RemoteEnv) (apiKey : String) (params : OnboardParams)
      (st : SysState) (user : User) (t0 : Team) (rest : List Team)
      (spaces : List SpaceRaw),
      env.user = .ok user →
      env.teams = .ok (t0 :: rest) →
      env.spaces (pickWorkspace params t0 (t0 :: rest)).id = .ok spaces →
      (fullSetup env apiKey params st).1.file
        = .record (buildFullConfig apiKey
            (pickWorkspace params t0 (t0 :: rest)) user params) ∧
      (buildFullConfig apiKey (pickWorkspace params t0 (t0 :: rest)) user
          params).defaults = some (amendedDefaults params) := by
  intro env apiKey params st user t0 rest spaces hu ht hs
  constructor
  · unfold fullSetup
    rw [hu, ht]
    dsimp only
    rw [hs]
    rfl
  · simp only [buildFullConfig, amendedDefaults, Option.some.injEq,
      Defaults.mk.injEq]
    refine ⟨trivial, ?_, ?_, trivial⟩
    · cases params.priority with
      | none => rfl
      | some p => by_cases h0 : p = 0 <;> simp [Option.filter, h0]
    · cases params.tags with
      | none => rfl
      | some s => by_cases h0 : s = "" <;> simp [jsNormStr, h0]

/-- Witness for C3 (amended): a concrete successful setup over a missing
prior file. -/
theorem fullsetup_defaults_caller_else_fallback_witness :
    (fullSetup envOneTeam "pk_w" {} ⟨.missing, none⟩).1.file
      = .record (buildFullConfig "pk_w"
          (pickWorkspace {} ⟨"W1", "Main"⟩ [⟨"W1", "Main"⟩]) userC3 {}) ∧
    (buildFullConfig "pk_w" (pickWorkspace {} ⟨"W1", "Main"⟩
        [⟨"W1", "Main"⟩]) userC3 {}).defaults
      = some (amendedDefaults {}) :=
  fullsetup_defaults_caller_else_fallback envOneTeam "pk_w" {}
    ⟨.missing, none⟩ userC3 ⟨"W1", "Main"⟩ [] [] rfl rfl rfl

theorem discoverLists_append (a b : List SpaceRaw) :
    discoverLists (a ++ b) = discoverLists a ++ discoverLists b := by
  induction a with
  | nil => rfl
  | cons sp rest ih => simp [discoverLists, ih]

theorem folderEntries_absorb (n : String) (f : FolderRaw) :
    folderEntries n (absorbFolder f) = folderEntries n f := by
  cases hf : f.lists <;> simp [absorbFolder, folderEntries, hf]

theorem foldersEntries_absorb (n : String) (fs : List FolderRaw) :
    foldersEntries n (fs.map absorbFolder) = foldersEntries n fs := by
  induction fs with
  | nil => rfl
  | cons f rest ih => simp [foldersEntries, folderEntries_absorb, ih]

theorem spaceEntries_absorb (sp : SpaceRaw) :
    spaceEntries (absorbSpace sp) = spaceEntries sp := by
  unfold spaceEntries folderlessEntries absorbSpace
  cases hl : sp.folderless <;> cases hf : sp.folders <;>
    simp [foldersEntries_absorb, foldersEntries]

/-- C6: the three per-branch fetches of hierarchy discovery are
failure-isolated — discovery over any mix of failing branches equals
discovery where each failing branch returned an empty result (a failing
branch contributes nothing, and no failure escapes); in particular, when the
folder-listing fetch of one space throws, that space still contributes its
folderless lists and all other spaces contribute everything. -/
theorem discovery_failure_isolated :
    (∀ (spaces : List SpaceRaw),
        discoverLists spaces = discoverLists (spaces.map absorbSpace)) ∧
    (∀ (pre post : List SpaceRaw) (sp : SpaceRaw) (e : String),
        sp.folders = .error e →
        discoverLists (pre ++ sp :: post)
          = discoverLists pre ++ folderlessEntries sp
              ++ discoverLists post) := by
  constructor
  · intro spaces
    induction spaces with
    | nil => rfl
    | cons sp rest ih => simp [discoverLists, spaceEntries_absorb, ih]
  · intro pre post sp e h
    rw [discoverLists_append]
    show discoverLists pre ++ (spaceEntries sp ++ discoverLists post) = _
    simp [spaceEntries, h]

/-- Witness for C6: a concrete two-space workspace where the first space's
folder listing throws. -/
theorem discovery_failure_isolated_witness :
    discoverLists ([] ++ spFolderFail :: [spHealthy])
      = discoverLists [] ++ folderlessEntries spFolderFail
          ++ discoverLists [spHealthy] :=
  discovery_failure_isolated.2 [] [spHealthy] spFolderFail
    "ClickUp API 500" rfl

theorem foldersEntries_encode (n : String) (fs : List PFolder) :
    foldersEntries n (fs.map encodeFolder)
      = (fs.map (fun f => f.lists.map (specFolderEntry n f.name))).flatten := by
  induction fs with
  | nil => rfl
  | cons f rest ih =>
    simp [foldersEntries, folderEntries, encodeFolder, specFolderEntry, ih]

/-- C7: on a workspace whose branch fetches all succeed, the flat list
produced by discovery is exactly the spec-side traversal — spaces in API
order, folderless lists first, then each folder's lists in folder order,
every entry carrying the list id and name, the owning space's name, and the
owning folder's name (null for folderless). -/
theorem discovery_traversal_order :
    ∀ (ws : List PSpace),
      discoverLists (ws.map encodeSpace) = specTraversal ws := by
  intro ws
  induction ws with
  | nil => rfl
  | cons s rest ih =>
    simp [discoverLists, specTraversal, spaceEntries, folderlessEntries,
      encodeSpace, specFolderlessEntry, foldersEntries_encode, ih]

theorem jsToNumber_fortytwo : jsToNumber "42" = some 42 := by decide

theorem jsNormInt_endOfDay (d : Int) :
    jsNormInt (some (d * 86400000 + 86399000))
      = some (d * 86400000 + 86399000) := by
  have h : d * 86400000 + 86399000 ≠ 0 := by omega
  simp [jsNormInt, h]

/-- C5: with persisted defaults `{priority 3, tags ["via-claude"],
offset 1, assignee_self true}`, user id "42" and a configured default list,
a creation call with no overrides resolves to priority 3, tags
`["via-claude"]`, assignees `[42]`, and a due date of the day after "now"
at local 23:59:59.000; and a call with explicit priority 1 and tags
"urgent,ops" uses exactly those two values whatever the stored
configuration is. -/
theorem task_defaults_resolution :
    (∀ (now : LocalTime) (pd : String → Option Int) (n : String),
        createTaskResolve (.record cfgC5) { name := n } now pd
          = .request "L1"
              { name := n, markdown_description := none,
                assignees := some [some 42], tags := some ["via-claude"],
                status := none, priority := some 3,
                due_date := some (localToEpochMs ⟨now.day + 1, endOfDayMs⟩),
                start_date := none, time_estimate := none, parent := none,
                notify_all := true }) ∧
    (∀ (fs : FileState) (now : LocalTime) (pd : String → Option Int)
        (n : String),
        match createTaskResolve fs
            { name := n, list_id := some "L2", priority := some 1,
              tags := some "urgent,ops" } now pd with
        | .request _ body =>
            body.priority = some 1 ∧ body.tags = some ["urgent", "ops"]
        | .noList => False) := by
  constructor
  · intro now pd n
    simp +decide [createTaskResolve, cfgC5, loadConfig, jsNormStr,
      jsToNumber_fortytwo, jsOrInt, localToEpochMs, endOfDayMs,
      jsNormInt_endOfDay, toTimestamp]
  · intro fs now pd n
    simp +decide [createTaskResolve, jsNormStr, jsOrInt, splitTrim]

/-- C10: when the persisted `due_date_offset_days` is `0` and the caller
supplies no due date, the resolved body carries no due date — a zero offset
behaves exactly like an unset offset. -/
theorem zero_offset_no_due_date :
    ∀ (fs : FileState) (p : TaskParams) (now : LocalTime)
      (pd : String → Option Int) (cfg : Config) (dfl : Defaults),
      p.due_date = none →
      loadConfig fs = some cfg →
      cfg.defaults = some dfl →
      (dfl.due_date_offset_days = some 0 ∨
        dfl.due_date_offset_days = none) →
      match createTaskResolve fs p now pd with
      | .request _ body => body.due_date = none
      | .noList => True := by
  intro fs p now pd cfg dfl hdue hload hdfl hofs
  unfold createTaskResolve
  rw [hload, hdue]
  simp only [Option.some_bind, hdfl, Option.getD_some]
  split
  · rename_i listId body heq
    split at heq
    · simp at heq
    · rename_i l hl
      injection heq with h1 h2
      subst h2
      rcases hofs with h | h <;> simp [h, jsNormStr, jsNormInt]
  · trivial

/-- Witness for C10: a concrete zero-offset configuration yields a body
without a due date. -/
theorem zero_offset_no_due_date_witness :
    match createTaskResolve (.record cfgC10) { name := "t" } ⟨20000, 0⟩
        (fun _ => none) with
    | .request _ body => body.due_date = none
    | .noList => True :=
  zero_offset_no_due_date (.record cfgC10) { name := "t" } ⟨20000, 0⟩
    (fun _ => none) cfgC10 ⟨some true, some 3, some ["via-claude"], some 0⟩
    rfl rfl rfl (Or.inl rfl)

/-- Counterexample to C8: the `save` step on an unconfigured system returns
its not-configured payload with `isError` unset (false) — the result is not
flagged as an error — while writing nothing. -/
theorem stepsave_unconfigured_not_flagged :
    (stepSave {} .missing).2.isError = false ∧
    (stepSave {} .missing).2.tag = .noConfigText ∧
    (stepSave {} .missing).1 = .missing :=
  ⟨rfl, rfl, rfl⟩

/-- C8 (amended): the `save` step on a system with no loadable record
returns the NotConfigured message as a plain (non-error-flagged) payload
and leaves the file exactly as it was — nothing is created or written. -/
theorem stepsave_unconfigured_no_write :
    ∀ (params : OnboardParams) (fs : FileState),
      loadConfig fs = none →
      stepSave params fs = (fs, text .noConfigText) := by
  intro params fs h
  unfold stepSave
  rw [h]

/-- Witness for C8 (amended): the `save` step over an unparseable file. -/
theorem stepsave_unconfigured_no_write_witness :
    stepSave {} .invalid = (.invalid, text .noConfigText) :=
  stepsave_unconfigured_no_write {} .invalid rfl

end ClickupMCP
